import Mathlib

/-!
Verification of `project_style_py` against its specification.

Shallow embedding of the four modules of the repository:
`config.py` (configuration store and YAML loaders), `palettes.py`
(palette resolver) and `styling.py` (style applicator).  External
collaborators (the HTTP client, the YAML parser, the rendering
library and the font registry) are modelled as oracle parameters,
as the specification directs.  Machine state (the module-level
`_PALETTES` and `_THEMES` dictionaries) is passed explicitly.

Python dictionaries are modelled as insertion-ordered association
lists with the usual dict operations: lookup of the (unique) key,
and assignment that overwrites in place or appends a fresh key at
the end.
-/

namespace ProjectStylePy

/-- A stored palette value as found in the palette collection after a
load: either an ordered sequence of color strings (YAML sequence form)
or an insertion-ordered mapping from category name to color string
(YAML mapping form).  This mirrors the `isinstance(..., dict)` /
`isinstance(..., list)` branching in `palettes.py`. -/
inductive PaletteVal where
  | seq (colors : List String)
  | map (entries : List (String × String))
deriving DecidableEq, Repr

/-- A parsed YAML value, the output type of the `yaml.safe_load`
collaborator: scalars, sequences and mappings. -/
inductive Yaml where
  | ynull
  | ybool (b : Bool)
  | ynum (n : Int)
  | ystr (s : String)
  | yseq (xs : List Yaml)
  | ymap (kvs : List (String × Yaml))

/-- Python truthiness of a YAML value (`if not x`, `if font_dict`):
`None`, `False`, `0`, empty string, empty list and empty dict are
falsy, everything else is truthy. -/
def Yaml.truthy : Yaml → Bool
  | .ynull => false
  | .ybool b => b
  | .ynum n => n != 0
  | .ystr s => !s.isEmpty
  | .yseq xs => !xs.isEmpty
  | .ymap kvs => !kvs.isEmpty

/-- Dictionary lookup (`d[k]` / `d.get(k)` / `k in d` through
`Option.isSome`): the value of the first entry with the given key. -/
def alFind {α : Type} (l : List (String × α)) (k : String) : Option α :=
  match l with
  | [] => none
  | (k2, v) :: rest => if k2 = k then some v else alFind rest k

/-- Dictionary assignment (`d[k] = v`): overwrite the entry with the
given key in place, or append a fresh entry at the end, preserving
insertion order as Python dicts do. -/
def alSet {α : Type} (l : List (String × α)) (k : String) (v : α) : List (String × α) :=
  match l with
  | [] => [(k, v)]
  | (k2, v2) :: rest => if k2 = k then (k, v) :: rest else (k2, v2) :: alSet rest k v

/-- The process-wide configuration store: the module-level `_PALETTES`
and `_THEMES` dictionaries of `config.py`, in the well-formed state the
resolver and applicator operate on (a top-level mapping, per the input
format of the spec).  A theme configuration is a mapping from style
keys to heterogeneous YAML values. -/
structure Store where
  palettes : List (String × PaletteVal)
  themes : List (String × List (String × Yaml))

/-- Error values raised by the resolver and applicator.  The Python
code raises `ValueError` with formatted messages; each constructor
records the data interpolated into the message. -/
inductive PyErr where
  | emptyPalettes
  | emptyThemes
  | notFoundPalette (name : String) (available : String)
  | notFoundTheme (name : String) (available : List String)
  | emptyLabelsError
  | attrError (attr : String)
deriving DecidableEq, Repr

/-- The string `", ".join(palettes.keys())` interpolated into the
not-found error message: every currently available palette name,
comma separated. -/
def availStr (l : List (String × PaletteVal)) : String :=
  String.intercalate ", " (l.map Prod.fst)

/-- `config.get_project_palettes`: returns the current palette
collection, raising `ValueError` when nothing has been loaded
(`if not _PALETTES`). -/
def get_project_palettes (s : Store) : Except PyErr (List (String × PaletteVal)) :=
  if s.palettes.isEmpty then .error .emptyPalettes else .ok s.palettes

/-- `config.get_project_themes`: returns the current theme collection,
raising `ValueError` when nothing has been loaded. -/
def get_project_themes (s : Store) : Except PyErr (List (String × List (String × Yaml))) :=
  if s.themes.isEmpty then .error .emptyThemes else .ok s.themes

/-- `config.available_palettes`: a comma-joined string of the palette
names, or the fixed message when the collection is empty.  Reads the
module state directly, so it never raises. -/
def available_palettes (s : Store) : String :=
  if s.palettes.isEmpty then "No palettes available."
  else String.intercalate ", " (s.palettes.map Prod.fst)

/-- `config.available_themes`: a comma-joined string of the theme
names, or the fixed message when the collection is empty. -/
def available_themes (s : Store) : String :=
  if s.themes.isEmpty then "No themes available."
  else String.intercalate ", " (s.themes.map Prod.fst)

/-- `config.inspect_theme`: the configuration mapping of a single
theme; raises `ValueError` listing `list(themes.keys())` if the name
is absent. -/
def inspect_theme (s : Store) (theme_name : String) : Except PyErr (List (String × Yaml)) :=
  match get_project_themes s with
  | .error e => .error e
  | .ok themes =>
    match alFind themes theme_name with
    | none => .error (.notFoundTheme theme_name (themes.map Prod.fst))
    | some cfg => .ok cfg

/-- `palettes.get_palette`: looks the name up in the store; a
sequence-form palette is returned verbatim, a mapping-form palette is
flattened to `list(colors.values())`. -/
def get_palette (s : Store) (palette_name : String) : Except PyErr (List String) :=
  match get_project_palettes s with
  | .error e => .error e
  | .ok palettes =>
    match alFind palettes palette_name with
    | none => .error (.notFoundPalette palette_name (availStr palettes))
    | some (.seq colors) => .ok colors
    | some (.map entries) => .ok (entries.map Prod.snd)

/-- The `for label in data_labels_set: if label not in palette:
palette[label] = unseen_color` loop of `get_mapped_palette`.  Python
iterates over `set(data_labels)` in an unspecified order; we iterate
the labels in first-occurrence order, which agrees with it on every
property of the resulting dictionary other than the (unspecified)
relative order of the freshly appended keys, and on which a duplicate
label is a no-op because its key is already present. -/
def assignUnseen (palette : List (String × String)) (unseen_color : String) :
    List String → List (String × String)
  | [] => palette
  | l :: rest =>
    if (alFind palette l).isSome then assignUnseen palette unseen_color rest
    else assignUnseen (alSet palette l unseen_color) unseen_color rest

/-- `palettes.get_mapped_palette`.  For a mapping-form palette, every
distinct label not yet a key is assigned `unseen_color` by in-place
mutation of the stored dictionary, and that same (extended) dictionary
is returned, so the returned mapping and the store agree.  For a
sequence-form palette the code first rejects an empty label set
(`ValueError`), then evaluates
`palette_values = list(palettes[palette_name].values())` — but the
stored value is a `list`, which has no `.values()` method, so this
line raises `AttributeError` before the documented modulo-cycling
mapping on line 67 can be built.  (The `sorted(list(set(...)))` on
line 63 succeeds and has no observable effect.) -/
def get_mapped_palette (s : Store) (palette_name : String) (data_labels : List String)
    (unseen_color : String) : Except PyErr (List (String × String) × Store) :=
  match get_project_palettes s with
  | .error e => .error e
  | .ok palettes =>
    match alFind palettes palette_name with
    | none => .error (.notFoundPalette palette_name (availStr palettes))
    | some (.map palette) =>
      let palette2 := assignUnseen palette unseen_color data_labels
      .ok (palette2, { s with palettes := alSet s.palettes palette_name (.map palette2) })
    | some (.seq _) =>
      if data_labels.isEmpty then .error .emptyLabelsError
      else .error (.attrError "values")

/-- `palettes.display_project_palette`: the same lookup and not-found
failure as `get_palette`; always returns the stored palette value
(sequence or mapping) unchanged.  The swatch rendering guarded by the
`show` flag only calls the rendering collaborator and does not affect
the returned value or the store, so the flag is unused in the model. -/
def display_project_palette (s : Store) (palette_name : String) (showFlag : Bool) :
    Except PyErr PaletteVal :=
  match get_project_palettes s with
  | .error e => .error e
  | .ok palettes =>
    match alFind palettes palette_name with
    | none => .error (.notFoundPalette palette_name (availStr palettes))
    | some colors => .ok colors

/-! ### Loaders (`config.py`)

The loaders are modelled over raw `Yaml` state, because
`load_project_palettes` / `load_project_themes` store whatever
`yaml.safe_load` returns, with no shape check.  The HTTP/file fetch
(`_fetch_config_content`, including the GitHub token header juggling)
and the YAML parser are external collaborators, passed as oracles:
`fetchResult` is the outcome of fetching the configuration text
(`IOError` / `FileNotFoundError` message on failure), `parse` is
`yaml.safe_load` (`yaml.YAMLError` message on failure), and
`fetchBinary` is the outcome of `_fetch_binary_content` per font
path.  `_add_font` writes the fetched bytes to a temp file and hands
it to the font registry — pure I/O glue — so its observable outcome
is exactly the outcome of the binary fetch. -/

/-- Failures inside the font-loading loop of `load_project_themes`:
a `fetch` failure is the `IOError`/`FileNotFoundError` raised by
`_fetch_binary_content` (caught by the enclosing handler), while
`shape` stands for the `AttributeError`/`TypeError` raised when a
`fonts` value is not a mapping of name to path sequence (such an
error is not in the `except (IOError, yaml.YAMLError)` clause and
escapes uncaught). -/
inductive FontErr where
  | fetch (msg : String)
  | shape
deriving DecidableEq, Repr

/-- Result of a theme load: `configLoad` is the `RuntimeError` raised
by the `except` clause, `uncaughtShape` an error escaping it. -/
inductive ThemeLoadErr where
  | configLoad (msg : String)
  | uncaughtShape
deriving DecidableEq, Repr

/-- The inner `for font_path in font_paths: _add_font(font_path, ...)`
loop: each listed path is fetched; the first fetch failure propagates.
A non-string element would make `_add_font` fail on `path.startswith`
with an uncaught `AttributeError`, modelled as `shape`. -/
def loadFontPaths (fetchBinary : String → Except String Unit) :
    List Yaml → Except FontErr Unit
  | [] => .ok ()
  | .ystr p :: rest =>
    match fetchBinary p with
    | .error e => .error (.fetch e)
    | .ok _ => loadFontPaths fetchBinary rest
  | _ :: _ => .error .shape

/-- The `for font_name, font_paths in theme_config["fonts"].items()`
loop: each font name maps to a sequence of file locations.  A value
that is not a sequence cannot be iterated, modelled as `shape`. -/
def loadFontEntries (fetchBinary : String → Except String Unit) :
    List (String × Yaml) → Except FontErr Unit
  | [] => .ok ()
  | (_, .yseq paths) :: rest =>
    match loadFontPaths fetchBinary paths with
    | .error e => .error e
    | .ok _ => loadFontEntries fetchBinary rest
  | (_, _) :: _ => .error .shape

/-- The `for theme_name, theme_config in _THEMES.items()` loop: for
each theme whose configuration mapping contains a `fonts` key, load
all its fonts.  A `fonts` value that is not a mapping has no
`.items()`, modelled as `shape`; a theme configuration that is not a
mapping is skipped (the claims only exercise mapping-form themes). -/
def loadThemesFonts (fetchBinary : String → Except String Unit) :
    List (String × Yaml) → Except FontErr Unit
  | [] => .ok ()
  | (_, .ymap kvs) :: rest =>
    match alFind kvs "fonts" with
    | none => loadThemesFonts fetchBinary rest
    | some (.ymap fonts) =>
      match loadFontEntries fetchBinary fonts with
      | .error e => .error e
      | .ok _ => loadThemesFonts fetchBinary rest
    | some _ => .error .shape
  | (_, _) :: rest => loadThemesFonts fetchBinary rest

/-- The whole font pass over the freshly assigned `_THEMES` value:
iterating `.items()` of a non-mapping raises, modelled as `shape`. -/
def loadAllThemeFonts (fetchBinary : String → Except String Unit) (themes : Yaml) :
    Except FontErr Unit :=
  match themes with
  | .ymap ts => loadThemesFonts fetchBinary ts
  | _ => .error .shape

/-- `config.load_project_palettes`, as a transformer of the module
state `_PALETTES` (second component of the result).  The fetched text
is parsed and the parse result is stored as-is — there is no check
that it is a mapping.  Fetch and parse failures are re-raised as
`RuntimeError("Failed to load palettes: ...")`, leaving the previous
state in place. -/
def load_project_palettes (oldPalettes : Yaml) (fetchResult : Except String String)
    (parse : String → Except String Yaml) : Except String Unit × Yaml :=
  match fetchResult with
  | .error e => (.error ("Failed to load palettes: " ++ e), oldPalettes)
  | .ok content =>
    match parse content with
    | .error e => (.error ("Failed to load palettes: " ++ e), oldPalettes)
    | .ok y => (.ok (), y)

/-- `config.load_project_themes`, as a transformer of the module state
`_THEMES` (second component of the result).  The parsed value is
assigned to `_THEMES` *before* the font loop runs; a font fetch
failure (`IOError`, a class that the `except (IOError, yaml.YAMLError)`
clause catches) is therefore re-raised as
`RuntimeError("Failed to load themes: ...")` while the replaced theme
collection stays in place. -/
def load_project_themes (oldThemes : Yaml) (fetchResult : Except String String)
    (parse : String → Except String Yaml) (fetchBinary : String → Except String Unit) :
    Except ThemeLoadErr Unit × Yaml :=
  match fetchResult with
  | .error e => (.error (.configLoad ("Failed to load themes: " ++ e)), oldThemes)
  | .ok content =>
    match parse content with
    | .error e => (.error (.configLoad ("Failed to load themes: " ++ e)), oldThemes)
    | .ok newThemes =>
      match loadAllThemeFonts fetchBinary newThemes with
      | .ok _ => (.ok (), newThemes)
      | .error (.fetch m) => (.error (.configLoad ("Failed to load themes: " ++ m)), newThemes)
      | .error .shape => (.error .uncaughtShape, newThemes)

/-! ### Style applicator (`styling.py`) -/

/-- The font block of `set_project_style`: given the popped `fonts`
value (`None` when the key was absent, in which case `pop` returned
the `{}` default), extend the style dictionary.  A non-empty font
dictionary forces `font.family = sans-serif` and lists the declared
font names, in order, under `font.sans-serif` (first name first, so
it is the default).  An empty or falsy popped value leaves the style
untouched; a truthy non-mapping value would raise at `.items()`. -/
def applyFontStyle (style : List (String × Yaml)) :
    Option Yaml → Except PyErr (List (String × Yaml))
  | none => .ok style
  | some fv =>
    if fv.truthy then
      match fv with
      | .ymap fonts =>
        .ok (alSet (alSet style "font.family" (.ystr "sans-serif"))
              "font.sans-serif" (.yseq (fonts.map (fun p => .ystr p.1))))
      | _ => .error (.attrError "items")
    else .ok style

/-- `dict.update(kwargs)`: each caller override is assigned in order,
overwriting existing keys and appending new ones. -/
def alUpdateMany (style : List (String × Yaml)) (kwargs : List (String × Yaml)) :
    List (String × Yaml) :=
  kwargs.foldl (fun acc kv => alSet acc kv.1 kv.2) style

/-- `styling.set_project_style`.  After the not-found check,
`theme_config.pop("fonts", {})` removes the `fonts` key from the
stored theme dictionary itself — the store mutation is the updated
`themes` collection of the returned `Store`.  The merged style
dictionary (theme settings minus `fonts`, plus the font-family keys,
overridden key-by-key by `kwargs`) and the `advanced_grid_style`
block the returned closure is bound to are the other components.
`plt.rcdefaults()` (when `clean_style`), `plt.rcParams.update`, the
seaborn default-palette block (whose `ValueError`/`StopIteration`
are caught and only warn) and `_register_continuous_cmaps` act on
the rendering collaborator, not on the store, and are not modelled. -/
def set_project_style (s : Store) (theme_name : String) (clean_style : Bool)
    (kwargs : List (String × Yaml)) :
    Except PyErr ((List (String × Yaml)) × Yaml × Store) :=
  match get_project_themes s with
  | .error e => .error e
  | .ok themes =>
    match alFind themes theme_name with
    | none => .error (.notFoundTheme theme_name (themes.map Prod.fst))
    | some theme_config =>
      let fontsVal := alFind theme_config "fonts"
      let theme_popped := theme_config.filter (fun p => p.1 ≠ "fonts")
      match applyFontStyle theme_popped fontsVal with
      | .error e => .error e
      | .ok style1 =>
        let style_dict := alUpdateMany style1 kwargs
        let advanced := (alFind theme_popped "advanced_grid_style").getD (.ymap [])
        .ok (style_dict, advanced, { s with themes := alSet s.themes theme_name theme_popped })

/-! ### Helper lemmas about the dictionary model -/

theorem alFind_ne_nil {α : Type} {l : List (String × α)} {k : String} {v : α}
    (h : alFind l k = some v) : l.isEmpty = false := by
  cases l with
  | nil => simp [alFind] at h
  | cons p rest => simp

theorem alFind_alSet_self {α : Type} (l : List (String × α)) (k : String) (v : α) :
    alFind (alSet l k v) k = some v := by
  induction l with
  | nil => simp [alSet, alFind]
  | cons p rest ih =>
    obtain ⟨k2, v2⟩ := p
    by_cases h : k2 = k
    · simp [alSet, alFind, h]
    · simp [alSet, alFind, h, ih]

theorem alFind_alSet_ne {α : Type} (l : List (String × α)) {k j : String} (v : α)
    (h : j ≠ k) : alFind (alSet l j v) k = alFind l k := by
  induction l with
  | nil => simp [alSet, alFind, h]
  | cons p rest ih =>
    obtain ⟨k2, v2⟩ := p
    by_cases h2 : k2 = j
    · subst h2; simp [alSet, alFind, h]
    · simp [alSet, alFind, h2, ih]

theorem alSet_isEmpty_false {α : Type} (l : List (String × α)) (k : String) (v : α) :
    (alSet l k v).isEmpty = false := by
  cases l with
  | nil => simp [alSet]
  | cons p rest =>
    obtain ⟨k2, v2⟩ := p
    by_cases h : k2 = k <;> simp [alSet, h]

theorem alFind_some_mem_snd {α : Type} {l : List (String × α)} {k : String} {v : α}
    (h : alFind l k = some v) : v ∈ l.map Prod.snd := by
  induction l with
  | nil => simp [alFind] at h
  | cons p rest ih =>
    obtain ⟨k2, v2⟩ := p
    by_cases h2 : k2 = k
    · simp [alFind, h2] at h
      simp [h]
    · simp [alFind, h2] at h
      simp [ih h]

theorem alFind_filter_self {α : Type} (l : List (String × α)) (k : String) :
    alFind (l.filter (fun p => p.1 ≠ k)) k = none := by
  induction l with
  | nil => simp [alFind]
  | cons p rest ih =>
    obtain ⟨k2, v2⟩ := p
    by_cases h : k2 = k
    · simpa [List.filter_cons, h] using ih
    · simpa [List.filter_cons, h, alFind] using ih

theorem filter_idem {α : Type} (p : α → Bool) (l : List α) :
    (l.filter p).filter p = l.filter p := by
  induction l with
  | nil => rfl
  | cons a t ih =>
    by_cases h : p a <;> simp [List.filter_cons, h, ih]

theorem assignUnseen_some {pal : List (String × String)} {uc k c : String}
    {ls : List String} (h : alFind pal k = some c) :
    alFind (assignUnseen pal uc ls) k = some c := by
  induction ls generalizing pal with
  | nil => simpa [assignUnseen] using h
  | cons l rest ih =>
    simp only [assignUnseen]
    by_cases hl : (alFind pal l).isSome
    · simp only [hl, if_pos]
      exact ih h
    · have hlk : l ≠ k := by
        intro e
        subst e
        rw [h] at hl
        simp at hl
      simp only [hl, if_neg, Bool.false_eq_true, not_false_iff]
      exact ih (by rw [alFind_alSet_ne pal uc hlk]; exact h)

theorem assignUnseen_new {pal : List (String × String)} {uc k : String}
    {ls : List String} (hmem : k ∈ ls) (h : alFind pal k = none) :
    alFind (assignUnseen pal uc ls) k = some uc := by
  induction ls generalizing pal with
  | nil => cases hmem
  | cons l rest ih =>
    simp only [assignUnseen]
    by_cases hl : (alFind pal l).isSome
    · have hlk : l ≠ k := by
        intro e
        subst e
        rw [h] at hl
        simp at hl
      simp only [hl, if_pos]
      rcases List.mem_cons.mp hmem with he | hr
      · exact absurd he.symm hlk
      · exact ih hr h
    · simp only [hl, Bool.false_eq_true, not_false_iff, if_neg]
      by_cases hlk : l = k
      · subst hlk
        exact assignUnseen_some (alFind_alSet_self pal l uc)
      · rcases List.mem_cons.mp hmem with he | hr
        · exact absurd he.symm hlk
        · exact ih hr (by rw [alFind_alSet_ne pal uc hlk]; exact h)

theorem assignUnseen_isSome {pal : List (String × String)} {uc k : String}
    {ls : List String} (hmem : k ∈ ls) :
    (alFind (assignUnseen pal uc ls) k).isSome := by
  cases h : alFind pal k with
  | none => rw [assignUnseen_new hmem h]; rfl
  | some c => rw [assignUnseen_some h]; rfl

theorem assignUnseen_id {pal : List (String × String)} {uc : String}
    {ls : List String} (h : ∀ l ∈ ls, (alFind pal l).isSome) :
    assignUnseen pal uc ls = pal := by
  induction ls with
  | nil => rfl
  | cons l rest ih =>
    have hl := h l (List.mem_cons_self l rest)
    simp only [assignUnseen, hl, if_pos]
    exact ih (fun x hx => h x (List.mem_cons_of_mem l hx))

theorem get_project_palettes_ok {s : Store} (h : s.palettes.isEmpty = false) :
    get_project_palettes s = .ok s.palettes := by
  simp [get_project_palettes, h]

theorem get_project_themes_ok {s : Store} (h : s.themes.isEmpty = false) :
    get_project_themes s = .ok s.themes := by
  simp [get_project_themes, h]

/-- Reduction of `get_mapped_palette` on a mapping-form palette: the
loop extends the stored mapping with the unseen labels and the same
extended mapping is both returned and written back to the store. -/
theorem get_mapped_palette_mapForm {s : Store} {name : String}
    {pal : List (String × String)} (h : alFind s.palettes name = some (.map pal))
    (labels : List String) (uc : String) :
    get_mapped_palette s name labels uc =
      .ok (assignUnseen pal uc labels,
        { s with palettes := alSet s.palettes name (.map (assignUnseen pal uc labels)) }) := by
  simp [get_mapped_palette, get_project_palettes_ok (alFind_ne_nil h), h]

/-! ### Concrete stores used to evaluate the claims -/

/-- A store holding one sequence-form palette, the palette of the
cycling-determinism example of the spec. -/
def seqStore : Store :=
  { palettes := [("bright", .seq ["#111", "#222", "#333"])], themes := [] }

/-- A store holding one mapping-form palette, the palette of the
persistence example of the spec. -/
def mapStore : Store :=
  { palettes := [("named", .map [("x", "#000")])], themes := [] }

/-- A store holding both demonstration palettes. -/
def twoStore : Store :=
  { palettes := [("bright", .seq ["#111", "#222", "#333"]),
                 ("named", .map [("x", "#000")])],
    themes := [] }

/-! ### Claims -/

/-- C1: the claim states that for a sequence-form palette the i-th
label of the sorted de-duplicated label set gets
`palette[i mod len(palette)]`, so that palette
`["#111", "#222", "#333"]` with labels `a b c d` yields the mapping
`a:#111, b:#222, c:#333, d:#111`.  The code never builds that
mapping: line 64 of `palettes.py` evaluates
`list(palettes[palette_name].values())`, and a sequence-form palette
is a `list`, which has no `.values()` method, so the call raises
`AttributeError` — while the inline comment and the docstring show
the modulo-cycling mapping is the intent.  This theorem evaluates the
embedded code at exactly the claimed input and shows the error. -/
theorem C1_seq_palette_raises :
    get_mapped_palette seqStore "bright" ["a", "b", "c", "d"] "#808080"
      = .error (.attrError "values") := rfl

/-- C5: the claim states that over a sequence-form palette the output
mapping is a pure function of the label set.  The code produces no
output mapping at all on a sequence-form palette: every call with a
non-empty label sequence raises `AttributeError` at line 64 (the
`.values()` call on a `list`).  This theorem evaluates the embedded
code at two label sequences with the same underlying set
(`{a, b, c, d}`, with reordering and duplication) and shows both
raise instead of producing mappings. -/
theorem C5_seq_palette_no_mapping :
    get_mapped_palette seqStore "bright" ["b", "a", "a", "c", "d"] "#808080"
      = .error (.attrError "values") ∧
    get_mapped_palette seqStore "bright" ["d", "c", "b", "a"] "#808080"
      = .error (.attrError "values") := ⟨rfl, rfl⟩

/-- C7: for every sequence-form palette in the store, calling
`get_mapped_palette` with a label sequence whose underlying set is
empty fails with the Invalid Argument Error (the `ValueError` of
line 61, raised before the faulty `.values()` line is reached). -/
theorem C7_empty_labels_invalid (s : Store) (palette_name unseen_color : String)
    (data_labels : List String) (colors : List String)
    (hpal : alFind s.palettes palette_name = some (.seq colors))
    (hlab : data_labels.isEmpty = true) :
    get_mapped_palette s palette_name data_labels unseen_color
      = .error .emptyLabelsError := by
  simp [get_mapped_palette, get_project_palettes_ok (alFind_ne_nil hpal), hpal, hlab]

/-- C7 witness: the sequence-form demonstration palette with an empty
label list fails with the Invalid Argument Error. -/
theorem C7_empty_labels_invalid_witness :
    get_mapped_palette seqStore "bright" [] "#808080" = .error .emptyLabelsError :=
  C7_empty_labels_invalid seqStore "bright" "#808080" [] ["#111", "#222", "#333"] rfl rfl

/-- C10: for every mapping-form palette in the store, calling
`get_mapped_palette` with an empty label sequence succeeds — the
Invalid Argument check guards only the sequence-form branch — and
returns the stored palette mapping unchanged (the unseen-label loop
is a no-op), which is also what the store still holds afterwards. -/
theorem C10_map_palette_empty_labels (s : Store) (palette_name unseen_color : String)
    (pal : List (String × String))
    (hpal : alFind s.palettes palette_name = some (.map pal)) :
    ∃ s2 : Store, get_mapped_palette s palette_name [] unseen_color = .ok (pal, s2) ∧
      alFind s2.palettes palette_name = some (.map pal) := by
  refine ⟨_, get_mapped_palette_mapForm hpal [] unseen_color, ?_⟩
  exact alFind_alSet_self s.palettes palette_name (.map pal)

/-- C10 witness: the mapping-form demonstration palette with an empty
label list returns the stored mapping `x : #000` unchanged. -/
theorem C10_map_palette_empty_labels_witness :
    ∃ s2 : Store, get_mapped_palette mapStore "named" [] "#808080"
        = .ok ([("x", "#000")], s2) ∧
      alFind s2.palettes "named" = some (.map [("x", "#000")]) :=
  C10_map_palette_empty_labels mapStore "named" "#808080" [("x", "#000")] rfl

/-- C2: for every mapping-form palette in the store,
`get_mapped_palette` assigns `unseen_color` to every label of
`data_labels` not yet a key of the stored mapping, leaves the
already-assigned labels untouched, and returns the extended mapping;
the same extended mapping is written back into the store, so a later
`get_palette` on the same name returns a color list containing every
such label color, and a later `get_mapped_palette` with the same
labels returns the very same mapping. -/
theorem C2_map_palette_persists (s : Store) (palette_name unseen_color : String)
    (data_labels : List String) (pal : List (String × String))
    (hpal : alFind s.palettes palette_name = some (.map pal)) :
    ∃ m s2, get_mapped_palette s palette_name data_labels unseen_color = .ok (m, s2) ∧
      (∀ l ∈ data_labels, alFind pal l = none → alFind m l = some unseen_color) ∧
      (∀ l c, alFind pal l = some c → alFind m l = some c) ∧
      alFind s2.palettes palette_name = some (.map m) ∧
      get_palette s2 palette_name = .ok (m.map Prod.snd) ∧
      (∀ l ∈ data_labels, ∃ c, alFind m l = some c ∧ c ∈ m.map Prod.snd) ∧
      (∃ s3, get_mapped_palette s2 palette_name data_labels unseen_color = .ok (m, s3)) := by
  refine ⟨assignUnseen pal unseen_color data_labels, _,
    get_mapped_palette_mapForm hpal data_labels unseen_color,
    fun l hl hn => assignUnseen_new hl hn,
    fun l c hc => assignUnseen_some hc, ?_, ?_, ?_, ?_⟩
  · exact alFind_alSet_self s.palettes palette_name _
  · simp [get_palette, get_project_palettes, alSet_isEmpty_false,
      alFind_alSet_self s.palettes palette_name _]
  · intro l hl
    cases hc : alFind pal l with
    | none =>
      exact ⟨unseen_color, assignUnseen_new hl hc,
        alFind_some_mem_snd (assignUnseen_new hl hc)⟩
    | some c =>
      exact ⟨c, assignUnseen_some hc, alFind_some_mem_snd (assignUnseen_some hc)⟩
  · have hred := @get_mapped_palette_mapForm
      { palettes := alSet s.palettes palette_name
          (.map (assignUnseen pal unseen_color data_labels)),
        themes := s.themes }
      palette_name (assignUnseen pal unseen_color data_labels)
      (alFind_alSet_self s.palettes palette_name _) data_labels unseen_color
    rw [assignUnseen_id (fun l hl => assignUnseen_isSome hl)] at hred
    exact ⟨_, hred⟩

/-- C2 witness: the example of the spec — palette `x : #000`, labels
`x, y`, unseen color `#808080` — where the resolver both returns and
persists `x : #000, y : #808080`. -/
theorem C2_map_palette_persists_witness :
    ∃ m s2, get_mapped_palette mapStore "named" ["x", "y"] "#808080" = .ok (m, s2) ∧
      (∀ l ∈ ["x", "y"], alFind [("x", "#000")] l = none → alFind m l = some "#808080") ∧
      (∀ l c, alFind [("x", "#000")] l = some c → alFind m l = some c) ∧
      alFind s2.palettes "named" = some (.map m) ∧
      get_palette s2 "named" = .ok (m.map Prod.snd) ∧
      (∀ l ∈ ["x", "y"], ∃ c, alFind m l = some c ∧ c ∈ m.map Prod.snd) ∧
      (∃ s3, get_mapped_palette s2 "named" ["x", "y"] "#808080" = .ok (m, s3)) :=
  C2_map_palette_persists mapStore "named" "#808080" ["x", "y"] [("x", "#000")] rfl

/-- C6: for every palette name absent from a non-empty palette
collection, `get_palette`, `get_mapped_palette` and
`display_project_palette` all fail with the Not Found Error carrying
`", ".join(palettes.keys())` — the comma-joined string of every
currently available palette name. -/
theorem C6_not_found_lists_names (s : Store) (palette_name unseen_color : String)
    (data_labels : List String) (showFlag : Bool)
    (hne : s.palettes.isEmpty = false)
    (habs : alFind s.palettes palette_name = none) :
    get_palette s palette_name
        = .error (.notFoundPalette palette_name (availStr s.palettes)) ∧
    get_mapped_palette s palette_name data_labels unseen_color
        = .error (.notFoundPalette palette_name (availStr s.palettes)) ∧
    display_project_palette s palette_name showFlag
        = .error (.notFoundPalette palette_name (availStr s.palettes)) := by
  refine ⟨?_, ?_, ?_⟩ <;>
    simp [get_palette, get_mapped_palette, display_project_palette,
      get_project_palettes_ok hne, habs]

/-- C6 witness: looking up the absent name `missing` in the two-palette
demonstration store fails in all three operations with the error
listing both available names. -/
theorem C6_not_found_lists_names_witness :
    get_palette twoStore "missing"
        = .error (.notFoundPalette "missing" "bright, named") ∧
    get_mapped_palette twoStore "missing" ["a"] "#808080"
        = .error (.notFoundPalette "missing" "bright, named") ∧
    display_project_palette twoStore "missing" true
        = .error (.notFoundPalette "missing" "bright, named") :=
  C6_not_found_lists_names twoStore "missing" "#808080" ["a"] true rfl rfl

/-- A parsed theme collection with one theme whose `fonts` sub-mapping
lists one font file, used to evaluate the loader claims. -/
def fontThemeYaml : Yaml :=
  .ymap [("pub", .ymap [("figure.dpi", .ynum 100),
    ("fonts", .ymap [("Roboto", .yseq [.ystr "https://fonts.example/roboto.ttf"])])])]

/-- C3 counterexample: the claim states that a failure to fetch an
individual font listed in a successfully parsed theme source does not
make `load_themes` fail.  At this concrete input — themes parse to
`fontThemeYaml`, and the binary fetch of its one font file fails with
an `IOError` — `load_project_themes` raises
`RuntimeError("Failed to load themes: ...")`: the font loop runs
inside the same `try` block whose `except (IOError, yaml.YAMLError)`
clause re-raises, so the failure is fatal to the call (although the
theme collection has already been replaced). -/
theorem C3_font_failure_counterexample :
    load_project_themes .ynull (.ok "themes yaml")
        (fun _ => .ok fontThemeYaml)
        (fun p => .error ("Failed to fetch remote file from " ++ p ++ ": 404"))
      = (.error (.configLoad
          "Failed to load themes: Failed to fetch remote file from https://fonts.example/roboto.ttf: 404"),
         fontThemeYaml) := rfl

/-- C3 (amended): when the theme source parses successfully but
fetching an individual font file fails, `load_project_themes` raises a
Configuration Load Error wrapping the fetch failure — the failure is
fatal to the call, not a non-fatal condition — while the theme
collection has nonetheless already been replaced by the parsed themes,
because `_THEMES` is assigned before the font loop runs. -/
theorem C3_font_failure_fatal (oldThemes : Yaml) (content : String)
    (parse : String → Except String Yaml) (fetchBinary : String → Except String Unit)
    (newThemes : Yaml) (m : String)
    (hp : parse content = .ok newThemes)
    (hf : loadAllThemeFonts fetchBinary newThemes = .error (.fetch m)) :
    load_project_themes oldThemes (.ok content) parse fetchBinary =
      (.error (.configLoad ("Failed to load themes: " ++ m)), newThemes) := by
  simp [load_project_themes, hp, hf]

/-- C3 witness: a local font file that is missing makes the theme load
raise while the parsed theme collection is already in place. -/
theorem C3_font_failure_fatal_witness :
    load_project_themes .ynull (.ok "themes yaml")
        (fun _ => .ok fontThemeYaml)
        (fun p => .error ("Local file not found at: " ++ p))
      = (.error (.configLoad
          "Failed to load themes: Local file not found at: https://fonts.example/roboto.ttf"),
         fontThemeYaml) :=
  C3_font_failure_fatal .ynull "themes yaml" (fun _ => .ok fontThemeYaml)
    (fun p => .error ("Local file not found at: " ++ p)) fontThemeYaml
    "Local file not found at: https://fonts.example/roboto.ttf" rfl rfl

/-- C4 counterexample: the claim states `load_palettes` fails whenever
the content is valid YAML but not a top-level mapping.  At this
concrete input the fetched content parses to the YAML sequence
`[a, b]`, and `load_project_palettes` succeeds — the code stores
whatever `yaml.safe_load` returns without any mapping check — and the
palette collection is replaced by the non-mapping value, so the
previous collection is gone. -/
theorem C4_nonmapping_accepted_counterexample :
    load_project_palettes (.ymap [("old", .ystr "#000")]) (.ok "- a\n- b")
        (fun _ => .ok (.yseq [.ystr "a", .ystr "b"]))
      = (.ok (), .yseq [.ystr "a", .ystr "b"]) := rfl

/-- C4 (amended): `load_project_palettes` fails with a Configuration
Load Error exactly when the fetch fails (source unreachable or
missing) or the content fails to parse as YAML, and in those cases the
previous palette collection is kept; content that parses successfully
— mapping or not — is accepted and replaces the palette collection
with the parsed value. -/
theorem C4_load_palettes_behaviour (oldPalettes : Yaml)
    (fetchResult : Except String String) (parse : String → Except String Yaml) :
    (∀ e, fetchResult = .error e →
      load_project_palettes oldPalettes fetchResult parse =
        (.error ("Failed to load palettes: " ++ e), oldPalettes)) ∧
    (∀ c e, fetchResult = .ok c → parse c = .error e →
      load_project_palettes oldPalettes fetchResult parse =
        (.error ("Failed to load palettes: " ++ e), oldPalettes)) ∧
    (∀ c y, fetchResult = .ok c → parse c = .ok y →
      load_project_palettes oldPalettes fetchResult parse = (.ok (), y)) := by
  refine ⟨fun e he => ?_, fun c e hc hp => ?_, fun c y hc hp => ?_⟩ <;>
    subst_vars <;> simp [load_project_palettes, *]

/-- C4 witness: a missing local file fails the load and keeps the old
collection, while successfully parsed mapping content replaces it. -/
theorem C4_load_palettes_behaviour_witness :
    load_project_palettes (.ymap [("old", .ystr "#000")])
        (.error "Local configuration file not found at: p.yaml")
        (fun _ => .ok (.ymap []))
      = (.error "Failed to load palettes: Local configuration file not found at: p.yaml",
         .ymap [("old", .ystr "#000")]) ∧
    load_project_palettes (.ymap [("old", .ystr "#000")]) (.ok "k: v")
        (fun _ => .ok (.ymap [("k", .ystr "v")]))
      = (.ok (), .ymap [("k", .ystr "v")]) :=
  ⟨(C4_load_palettes_behaviour (.ymap [("old", .ystr "#000")])
      (.error "Local configuration file not found at: p.yaml")
      (fun _ => .ok (.ymap []))).1
      "Local configuration file not found at: p.yaml" rfl,
   (C4_load_palettes_behaviour (.ymap [("old", .ystr "#000")]) (.ok "k: v")
      (fun _ => .ok (.ymap [("k", .ystr "v")]))).2.2
      "k: v" (.ymap [("k", .ystr "v")]) rfl rfl⟩

/-- C8 counterexample: the claim states that on an empty collection
`available_palettes` / `available_themes` return an empty sequence of
keys.  On the empty store both return fixed human-readable message
strings instead — non-empty strings, not an empty key sequence. -/
theorem C8_empty_message_counterexample :
    available_palettes { palettes := [], themes := [] } = "No palettes available." ∧
    available_themes { palettes := [], themes := [] } = "No themes available." ∧
    "No palettes available." ≠ "" ∧ "No themes available." ≠ "" :=
  ⟨rfl, rfl, by decide, by decide⟩

/-- C8 (amended): `available_palettes` / `available_themes` never
fail; on a non-empty collection they return the comma-joined string of
the keys of the current collection (not a sequence), and on an empty
collection they return the fixed strings shown above rather than an
empty sequence. -/
theorem C8_available_names (s : Store) :
    (s.palettes.isEmpty = false →
      available_palettes s = String.intercalate ", " (s.palettes.map Prod.fst)) ∧
    (s.palettes.isEmpty = true → available_palettes s = "No palettes available.") ∧
    (s.themes.isEmpty = false →
      available_themes s = String.intercalate ", " (s.themes.map Prod.fst)) ∧
    (s.themes.isEmpty = true → available_themes s = "No themes available.") := by
  refine ⟨fun h => ?_, fun h => ?_, fun h => ?_, fun h => ?_⟩ <;>
    simp [available_palettes, available_themes, h]

/-- C8 witness: on the two-palette store the palette names are joined
with commas and the empty theme collection yields the message. -/
theorem C8_available_names_witness :
    available_palettes twoStore = String.intercalate ", " ["bright", "named"] ∧
    available_themes twoStore = "No themes available." :=
  ⟨(C8_available_names twoStore).1 rfl, (C8_available_names twoStore).2.2.2 rfl⟩

/-- The `applyFontStyle` step always succeeds on a mapping-form
`fonts` value (empty dictionaries are falsy and skipped, non-empty
ones set the font-family keys). -/
theorem applyFontStyle_ymap_ok (style : List (String × Yaml))
    (fonts : List (String × Yaml)) :
    ∃ st, applyFontStyle style (some (.ymap fonts)) = .ok st := by
  cases fonts with
  | nil => exact ⟨style, rfl⟩
  | cons f rest => exact ⟨_, rfl⟩

/-- C9: applying a style to a theme whose stored configuration
contains a `fonts` sub-mapping removes the `fonts` key from that
mapping of that theme in the store itself (`theme_config.pop` mutates the
stored dictionary), so the store afterwards holds the configuration
without `fonts`, `inspect_theme` returns a mapping with no `fonts`
key, and a repeated `set_project_style` on the same theme sees no
fonts and leaves the stored configuration as it is. -/
theorem C9_set_style_pops_fonts (s : Store) (theme_name : String)
    (cfg : List (String × Yaml)) (fonts : List (String × Yaml))
    (clean_style : Bool) (kwargs : List (String × Yaml))
    (hth : alFind s.themes theme_name = some cfg)
    (hf : alFind cfg "fonts" = some (.ymap fonts)) :
    ∃ style adv s2,
      set_project_style s theme_name clean_style kwargs = .ok (style, adv, s2) ∧
      alFind s2.themes theme_name = some (cfg.filter (fun p => p.1 ≠ "fonts")) ∧
      inspect_theme s2 theme_name = .ok (cfg.filter (fun p => p.1 ≠ "fonts")) ∧
      alFind (cfg.filter (fun p => p.1 ≠ "fonts")) "fonts" = none ∧
      (∃ style2 adv2 s3,
        set_project_style s2 theme_name clean_style kwargs = .ok (style2, adv2, s3) ∧
        alFind s3.themes theme_name = some (cfg.filter (fun p => p.1 ≠ "fonts"))) := by
  obtain ⟨st1, hst1⟩ :=
    applyFontStyle_ymap_ok (cfg.filter (fun p => p.1 ≠ "fonts")) fonts
  have hne : s.themes.isEmpty = false := alFind_ne_nil hth
  refine ⟨alUpdateMany st1 kwargs,
    (alFind (cfg.filter (fun p => p.1 ≠ "fonts")) "advanced_grid_style").getD (.ymap []),
    { s with themes := alSet s.themes theme_name (cfg.filter (fun p => p.1 ≠ "fonts")) },
    ?_, ?_, ?_, ?_, ?_⟩
  · simp only [ne_eq, decide_not] at hst1
    simp [set_project_style, get_project_themes_ok hne, hth, hf, hst1]
  · exact alFind_alSet_self s.themes theme_name _
  · simp [inspect_theme, get_project_themes, alSet_isEmpty_false,
      alFind_alSet_self s.themes theme_name _]
  · exact alFind_filter_self cfg "fonts"
  · refine ⟨alUpdateMany (cfg.filter (fun p => p.1 ≠ "fonts")) kwargs,
      (alFind (cfg.filter (fun p => p.1 ≠ "fonts")) "advanced_grid_style").getD (.ymap []),
      { s with themes := (alSet (alSet s.themes theme_name (cfg.filter (fun p => p.1 ≠ "fonts"))) theme_name (cfg.filter (fun p => p.1 ≠ "fonts"))) }, ?_, ?_⟩
    · have h1 : alFind (cfg.filter (fun p => !decide (p.1 = "fonts"))) "fonts" = none := by
        simpa using alFind_filter_self cfg "fonts"
      simp [set_project_style, get_project_themes, alSet_isEmpty_false,
        alFind_alSet_self s.themes theme_name _, applyFontStyle, filter_idem, h1]
    · exact alFind_alSet_self _ theme_name _

/-- C9 witness: a theme holding a dpi setting and a `fonts`
sub-mapping; after `set_project_style` the store keeps only the dpi
setting, with the `fonts` key gone for every later inspection. -/
theorem C9_set_style_pops_fonts_witness :
    ∃ style adv s2,
      set_project_style
          { palettes := [],
            themes := [("pub", [("figure.dpi", .ynum 100),
              ("fonts", .ymap [("Roboto", .yseq [.ystr "r.ttf"])])])] }
          "pub" true [] = .ok (style, adv, s2) ∧
      alFind s2.themes "pub" = some [("figure.dpi", .ynum 100)] ∧
      inspect_theme s2 "pub" = .ok [("figure.dpi", .ynum 100)] ∧
      alFind [(("figure.dpi" : String), Yaml.ynum 100)] "fonts" = none ∧
      (∃ style2 adv2 s3,
        set_project_style s2 "pub" true [] = .ok (style2, adv2, s3) ∧
        alFind s3.themes "pub" = some [("figure.dpi", .ynum 100)]) :=
  C9_set_style_pops_fonts
    { palettes := [],
      themes := [("pub", [("figure.dpi", .ynum 100),
        ("fonts", .ymap [("Roboto", .yseq [.ystr "r.ttf"])])])] }
    "pub" [("figure.dpi", .ynum 100), ("fonts", .ymap [("Roboto", .yseq [.ystr "r.ttf"])])]
    [("Roboto", .yseq [.ystr "r.ttf"])] true [] rfl rfl

end ProjectStylePy
